import Mathlib

/-!
# Verification of `class_loader` (src/src/class_loader.cpp)

A shallow embedding of the reference-counted library lifecycle manager
`class_loader::ClassLoader`.  The handle state mirrors the C++ data members;
calls into the process-wide library registry
(`class_loader::impl::loadLibrary` / `class_loader::impl::unloadLibrary`)
are recorded as an event trace rather than performed, since the registry is
an external collaborator of this translation unit.

Two models are given:
* a pure model (`loadLibrary`, `unloadLibrary`, `unloadLibraryInternal`)
  for counter/trace claims, and
* an exception-and-lock model (`unloadLibraryInternalE`, `unloadLibraryE`)
  that additionally threads an explicit `LockState` (the recursive
  `load_ref_count_mutex_` as a depth counter and the plain
  `plugin_ref_count_mutex_` as a flag) and a fallible registry release,
  mirroring the `try`/`catch (...)` block and the `std::lock_guard`
  RAII release in `unloadLibraryInternal`.
-/

/-- The per-handle state of `class_loader::ClassLoader`: the data members
set up in the constructor at src/src/class_loader.cpp:80-84. -/
structure ClassLoader where
  ondemand_load_unload_ : Bool
  library_path_ : String
  load_ref_count_ : Int
  plugin_ref_count_ : Int
deriving DecidableEq, Repr

/-- A call out of the handle into the process-wide registry
(`class_loader::impl`): `acquire` records `impl::loadLibrary(path, this)`,
`release` records `impl::unloadLibrary(path, this)`.  Only the registry
invokes the dynamic-module primitive (Poco `SharedLibrary`), so an empty
trace means the primitive cannot have been reached from this handle. -/
inductive RegistryEvent where
  | acquire (path : String)
  | release (path : String)
deriving DecidableEq, Repr

/-- `ClassLoader::loadLibrary` (src/src/class_loader.cpp:124-133): empty
path returns immediately; otherwise (under the load lock) increment
`load_ref_count_` and delegate to `impl::loadLibrary`. -/
def loadLibrary (c : ClassLoader) : ClassLoader × List RegistryEvent :=
  if c.library_path_ = "" then
    (c, [])
  else
    ({ c with load_ref_count_ := c.load_ref_count_ + 1 },
      [RegistryEvent.acquire c.library_path_])

/-- `ClassLoader::unloadLibraryInternal` (src/src/class_loader.cpp:144-176),
pure view: the lock manipulation is dropped (see `unloadLibraryInternalE`
for it).  If `plugin_ref_count_ > 0` the unload is refused (a warning is
logged) and the count is returned unchanged.  Otherwise the count is
decremented; if the stored value is 0, `impl::unloadLibrary` is delegated
to; if it went negative it is reset to 0.  Returns the final
`load_ref_count_`. -/
def unloadLibraryInternal (lock_plugin_ref_count : Bool) (c : ClassLoader) :
    ClassLoader × Int × List RegistryEvent :=
  if c.plugin_ref_count_ > 0 then
    (c, c.load_ref_count_, [])
  else if c.load_ref_count_ - 1 = 0 then
    ({ c with load_ref_count_ := c.load_ref_count_ - 1 }, c.load_ref_count_ - 1,
      [RegistryEvent.release c.library_path_])
  else if c.load_ref_count_ - 1 < 0 then
    ({ c with load_ref_count_ := 0 }, 0, [])
  else
    ({ c with load_ref_count_ := c.load_ref_count_ - 1 }, c.load_ref_count_ - 1, [])

/-- `ClassLoader::unloadLibrary` (src/src/class_loader.cpp:135-142): empty
path returns 0 immediately; otherwise `unloadLibraryInternal(true)`. -/
def unloadLibrary (c : ClassLoader) : ClassLoader × Int × List RegistryEvent :=
  if c.library_path_ = "" then
    (c, 0, [])
  else
    unloadLibraryInternal true c

/-- `ClassLoader::ClassLoader` (src/src/class_loader.cpp:80-93): stores the
configuration with both counters 0, then calls `loadLibrary()` unless
on-demand mode is enabled. -/
def construct (library_path : String) (ondemand_load_unload : Bool) :
    ClassLoader × List RegistryEvent :=
  if ¬ ondemand_load_unload then
    loadLibrary ⟨ondemand_load_unload, library_path, 0, 0⟩
  else
    (⟨ondemand_load_unload, library_path, 0, 0⟩, [])

/-- `ClassLoader::~ClassLoader` (src/src/class_loader.cpp:95-102): calls
`unloadLibrary()` unconditionally, discarding the returned count. -/
def destruct (c : ClassLoader) : ClassLoader × List RegistryEvent :=
  ((unloadLibrary c).1, (unloadLibrary c).2.2)

/-- One public call on a handle: `load` and `unload` are the handle's own
operations; `setPluginRefCount` stands for the out-of-scope factory layer
mutating `plugin_ref_count_` between calls. -/
inductive Op where
  | load
  | unload
  | setPluginRefCount (n : Int)
deriving DecidableEq, Repr

/-- Apply one call to the handle state (return values and traces dropped). -/
def stepOp (c : ClassLoader) : Op → ClassLoader
  | Op.load => (loadLibrary c).1
  | Op.unload => (unloadLibrary c).1
  | Op.setPluginRefCount n => { c with plugin_ref_count_ := n }

/-- Apply a finite sequence of calls, left to right. -/
def runOps (c : ClassLoader) : List Op → ClassLoader
  | [] => c
  | op :: rest => runOps (stepOp c op) rest

/-- Number of `load()` calls in a sequence. -/
def numLoads : List Op → Nat
  | [] => 0
  | Op.load :: rest => numLoads rest + 1
  | _ :: rest => numLoads rest

/-- Number of `unload()` calls in a sequence. -/
def numUnloads : List Op → Nat
  | [] => 0
  | Op.unload :: rest => numUnloads rest + 1
  | _ :: rest => numUnloads rest

/-! ## Lock-and-exception model of the internal unload -/

/-- The two mutexes of a handle: `load_ref_count_mutex_` is a
`std::recursive_mutex`, modelled as a hold depth; `plugin_ref_count_mutex_`
is a plain mutex, modelled as a held flag. -/
structure LockState where
  load_ref_mutex_depth : Nat
  plugin_ref_mutex_locked : Bool
deriving DecidableEq, Repr

/-- Lock acquisition at the top of `unloadLibraryInternal`
(src/src/class_loader.cpp:146-149): the `std::lock_guard` takes the
recursive load mutex, then the plugin mutex is locked iff requested. -/
def enterLocks (lock_plugin_ref_count : Bool) (ls : LockState) : LockState :=
  { load_ref_mutex_depth := ls.load_ref_mutex_depth + 1,
    plugin_ref_mutex_locked :=
      if lock_plugin_ref_count then true else ls.plugin_ref_mutex_locked }

/-- Lock release on any exit of `unloadLibraryInternal`: the plugin mutex is
unlocked iff it was taken by this call (both in the `catch (...)` handler,
src/src/class_loader.cpp:166-171, and on the normal path, lines 172-174),
and the `std::lock_guard` destructor releases one hold of the recursive
load mutex. -/
def exitLocks (lock_plugin_ref_count : Bool) (ls : LockState) : LockState :=
  { load_ref_mutex_depth := ls.load_ref_mutex_depth - 1,
    plugin_ref_mutex_locked :=
      if lock_plugin_ref_count then false else ls.plugin_ref_mutex_locked }

/-- `ClassLoader::unloadLibraryInternal` (src/src/class_loader.cpp:144-176)
with the lock state explicit and the registry release fallible:
`releaseResult` is the outcome of `impl::unloadLibrary` when it is invoked.
An exception thrown by the release is caught by `catch (...)`, the plugin
mutex is unlocked if this call locked it, the exception is rethrown
unmodified, and the `std::lock_guard` releases the load mutex while the
exception propagates; the error result carries the lock state at the point
the exception leaves the function. -/
def unloadLibraryInternalE {E : Type} (releaseResult : Except E Unit)
    (lock_plugin_ref_count : Bool) (c : ClassLoader) (ls : LockState) :
    Except (E × LockState) (ClassLoader × Int × List RegistryEvent × LockState) :=
  if c.plugin_ref_count_ > 0 then
    Except.ok (c, c.load_ref_count_, [],
      exitLocks lock_plugin_ref_count (enterLocks lock_plugin_ref_count ls))
  else if c.load_ref_count_ - 1 = 0 then
    match releaseResult with
    | Except.error e =>
      Except.error (e, exitLocks lock_plugin_ref_count (enterLocks lock_plugin_ref_count ls))
    | Except.ok _ =>
      Except.ok ({ c with load_ref_count_ := c.load_ref_count_ - 1 },
        c.load_ref_count_ - 1, [RegistryEvent.release c.library_path_],
        exitLocks lock_plugin_ref_count (enterLocks lock_plugin_ref_count ls))
  else if c.load_ref_count_ - 1 < 0 then
    Except.ok ({ c with load_ref_count_ := 0 }, 0, [],
      exitLocks lock_plugin_ref_count (enterLocks lock_plugin_ref_count ls))
  else
    Except.ok ({ c with load_ref_count_ := c.load_ref_count_ - 1 },
      c.load_ref_count_ - 1, [],
      exitLocks lock_plugin_ref_count (enterLocks lock_plugin_ref_count ls))

/-- `ClassLoader::unloadLibrary` (src/src/class_loader.cpp:135-142) over the
lock-and-exception model: empty path returns 0 immediately without touching
a lock; otherwise `unloadLibraryInternal(true)`. -/
def unloadLibraryE {E : Type} (releaseResult : Except E Unit)
    (c : ClassLoader) (ls : LockState) :
    Except (E × LockState) (ClassLoader × Int × List RegistryEvent × LockState) :=
  if c.library_path_ = "" then
    Except.ok (c, 0, [], ls)
  else
    unloadLibraryInternalE releaseResult true c ls

/-! ## Global diagnostic flag -/

/-- The process-wide state as far as this translation unit is concerned:
the static member `ClassLoader::has_unmananged_instance_been_created_`
(src/src/class_loader.cpp:39, the source's spelling), together with
whatever other process state exists (`rest`), abstracted by a type
parameter. -/
structure GlobalState (σ : Type) where
  has_unmananged_instance_been_created_ : Bool
  rest : σ

/-- The static initializer at src/src/class_loader.cpp:39. -/
def initial_has_unmananged_instance_been_created : Bool := false

/-- `ClassLoader::hasUnmanagedInstanceBeenCreated`
(src/src/class_loader.cpp:41-44). -/
def hasUnmanagedInstanceBeenCreated {σ : Type} (g : GlobalState σ) : Bool :=
  g.has_unmananged_instance_been_created_

/-- `ClassLoader::setUnmanagedInstanceBeenCreated`
(src/src/class_loader.cpp:46-49). -/
def setUnmanagedInstanceBeenCreated {σ : Type} (state : Bool)
    (g : GlobalState σ) : GlobalState σ :=
  { g with has_unmananged_instance_been_created_ := state }

/-! ## Helper lemmas -/

/-- `load()`/`unload()` never change the stored path or on-demand flag, and
only `setPluginRefCount` changes the plugin count. -/
theorem stepOp_preserves_config (c : ClassLoader) (op : Op) :
    (stepOp c op).library_path_ = c.library_path_ ∧
    (stepOp c op).ondemand_load_unload_ = c.ondemand_load_unload_ := by
  cases op with
  | load =>
    simp only [stepOp, loadLibrary]
    split <;> simp
  | unload =>
    simp only [stepOp, unloadLibrary, unloadLibraryInternal]
    split
    · simp
    · split
      · simp
      · split
        · simp
        · split <;> simp
  | setPluginRefCount n => simp [stepOp]

/-- One call never drives `load_ref_count_` negative. -/
theorem stepOp_nonneg (c : ClassLoader) (op : Op)
    (h : 0 ≤ c.load_ref_count_) : 0 ≤ (stepOp c op).load_ref_count_ := by
  cases op with
  | load =>
    simp only [stepOp, loadLibrary]
    split
    · exact h
    · simp only []
      omega
  | unload =>
    simp only [stepOp, unloadLibrary, unloadLibraryInternal]
    split
    · exact h
    · split
      · exact h
      · split
        · simp only []
          omega
        · split
          · simp only []
            omega
          · simp only []
            omega
  | setPluginRefCount n => exact h

/-- A sequence of calls never drives `load_ref_count_` negative. -/
theorem runOps_nonneg (ops : List Op) (c : ClassLoader)
    (h : 0 ≤ c.load_ref_count_) : 0 ≤ (runOps c ops).load_ref_count_ := by
  induction ops generalizing c with
  | nil => exact h
  | cons op rest ih => exact ih (stepOp c op) (stepOp_nonneg c op h)

/-- With a non-empty path, `load()` increments the count by one. -/
theorem stepOp_load_eq (c : ClassLoader) (hpath : ¬ c.library_path_ = "") :
    stepOp c Op.load = { c with load_ref_count_ := c.load_ref_count_ + 1 } := by
  simp [stepOp, loadLibrary, if_neg hpath]

/-- With a non-empty path, no live plugin instances and a positive count,
`unload()` decrements the count by one. -/
theorem stepOp_unload_eq (c : ClassLoader) (hpath : ¬ c.library_path_ = "")
    (hplugin : c.plugin_ref_count_ ≤ 0) (h1 : 1 ≤ c.load_ref_count_) :
    stepOp c Op.unload = { c with load_ref_count_ := c.load_ref_count_ - 1 } := by
  have hp : ¬ c.plugin_ref_count_ > 0 := by omega
  have hneg : ¬ c.load_ref_count_ - 1 < 0 := by omega
  simp only [stepOp, unloadLibrary, unloadLibraryInternal, if_neg hpath, if_neg hp]
  by_cases h0 : c.load_ref_count_ - 1 = 0
  · rw [if_pos h0]
  · rw [if_neg h0, if_neg hneg]

/-- Exact count of a load/unload sequence while no plugin instances exist,
provided no prefix has more unloads than the starting count plus its loads
(so the floor at 0 is never hit). -/
theorem runOps_count_eq (ops : List Op) : ∀ (c : ClassLoader),
    ¬ c.library_path_ = "" → c.plugin_ref_count_ = 0 → 0 ≤ c.load_ref_count_ →
    (∀ op ∈ ops, op = Op.load ∨ op = Op.unload) →
    (∀ k, k ≤ ops.length →
      (numUnloads (List.take k ops) : Int) ≤
        c.load_ref_count_ + numLoads (List.take k ops)) →
    (runOps c ops).load_ref_count_ =
      c.load_ref_count_ + numLoads ops - numUnloads ops := by
  induction ops with
  | nil =>
    intro c _ _ _ _ _
    simp [runOps, numLoads, numUnloads]
  | cons op rest ih =>
    intro c hpath hplugin hc hops hpre
    rcases hops op (List.mem_cons_self op rest) with hl | hu
    · subst hl
      simp only [runOps, stepOp_load_eq c hpath]
      rw [ih { c with load_ref_count_ := c.load_ref_count_ + 1 } hpath hplugin
        (by simp only []; omega)
        (fun o ho => hops o (List.mem_cons_of_mem _ ho)) ?_]
      · simp only [numLoads, numUnloads]
        push_cast
        omega
      · intro k hk
        have h := hpre (k + 1) (by simpa using Nat.succ_le_succ hk)
        simp only [List.take_succ_cons, numLoads, numUnloads] at h ⊢
        push_cast at h ⊢
        omega
    · subst hu
      have h1 : 1 ≤ c.load_ref_count_ := by
        have h := hpre 1 (by simp)
        simp only [List.take_succ_cons, List.take_zero, numLoads, numUnloads] at h
        push_cast at h
        omega
      simp only [runOps, stepOp_unload_eq c hpath (by omega) h1]
      rw [ih { c with load_ref_count_ := c.load_ref_count_ - 1 } hpath hplugin
        (by simp only []; omega)
        (fun o ho => hops o (List.mem_cons_of_mem _ ho)) ?_]
      · simp only [numLoads, numUnloads]
        push_cast
        omega
      · intro k hk
        have h := hpre (k + 1) (by simpa using Nat.succ_le_succ hk)
        simp only [List.take_succ_cons, numLoads, numUnloads] at h ⊢
        push_cast at h ⊢
        omega

/-- Entering then exiting the locks of one `unloadLibraryInternal` call
restores the lock state, provided the plugin mutex was free at entry. -/
theorem exit_enter_locks (lock_plugin_ref_count : Bool) (ls : LockState)
    (hls : ls.plugin_ref_mutex_locked = false) :
    exitLocks lock_plugin_ref_count (enterLocks lock_plugin_ref_count ls) = ls := by
  cases ls with
  | mk d p => cases lock_plugin_ref_count <;> simp_all [exitLocks, enterLocks]

/-- An empty-path handle: one call changes neither the count nor the path. -/
theorem stepOp_empty_path (c : ClassLoader) (h : c.library_path_ = "") (op : Op) :
    (stepOp c op).load_ref_count_ = c.load_ref_count_ ∧
    (stepOp c op).library_path_ = "" := by
  cases op with
  | load => simp [stepOp, loadLibrary, if_pos h, h]
  | unload => simp [stepOp, unloadLibrary, if_pos h, h]
  | setPluginRefCount n => simp [stepOp, h]

/-- An empty-path handle: no call sequence changes the count or the path. -/
theorem runOps_empty_path (ops : List Op) : ∀ (c : ClassLoader),
    c.library_path_ = "" →
    (runOps c ops).load_ref_count_ = c.load_ref_count_ ∧
    (runOps c ops).library_path_ = "" := by
  induction ops with
  | nil => exact fun c h => ⟨rfl, h⟩
  | cons op rest ih =>
    intro c h
    obtain ⟨h1, h2⟩ := stepOp_empty_path c h op
    obtain ⟨h3, h4⟩ := ih (stepOp c op) h2
    exact ⟨h3.trans h1, h4⟩

/-! ## Claims -/

/-- **C1.** For every finite sequence of `load()`/`unload()` calls on one
handle, `load_ref_count_` is never negative at any operation boundary, and
each single call changes `load_ref_count_` by exactly +1, −1, or 0, the 0
case occurring only when the call is an empty-path no-op, a refused unload
(`plugin_ref_count_ > 0`), or an unload clamped at the floor of 0. -/
theorem load_unload_ref_count_nonneg_and_unit_delta (c : ClassLoader)
    (ops : List Op) (op : Op) (h : 0 ≤ c.load_ref_count_)
    (hop : op = Op.load ∨ op = Op.unload) :
    0 ≤ (runOps c ops).load_ref_count_ ∧
    ((stepOp c op).load_ref_count_ - c.load_ref_count_ = 1 ∨
     (stepOp c op).load_ref_count_ - c.load_ref_count_ = -1 ∨
     ((stepOp c op).load_ref_count_ - c.load_ref_count_ = 0 ∧
       (c.library_path_ = "" ∨ (op = Op.unload ∧ 0 < c.plugin_ref_count_) ∨
        (op = Op.unload ∧ c.load_ref_count_ = 0)))) := by
  refine ⟨runOps_nonneg ops c h, ?_⟩
  rcases hop with rfl | rfl
  · by_cases hpath : c.library_path_ = ""
    · refine Or.inr (Or.inr ⟨?_, Or.inl hpath⟩)
      simp [stepOp, loadLibrary, if_pos hpath]
    · rw [stepOp_load_eq c hpath]
      left
      simp only []
      omega
  · by_cases hpath : c.library_path_ = ""
    · refine Or.inr (Or.inr ⟨?_, Or.inl hpath⟩)
      simp [stepOp, unloadLibrary, if_pos hpath]
    · by_cases hp : 0 < c.plugin_ref_count_
      · refine Or.inr (Or.inr ⟨?_, Or.inr (Or.inl ⟨rfl, hp⟩)⟩)
        simp only [stepOp, unloadLibrary, unloadLibraryInternal, if_neg hpath,
          if_pos hp]
        omega
      · by_cases h0 : c.load_ref_count_ = 0
        · have hne : ¬ c.load_ref_count_ - 1 = 0 := by omega
          have hlt : c.load_ref_count_ - 1 < 0 := by omega
          refine Or.inr (Or.inr ⟨?_, Or.inr (Or.inr ⟨rfl, h0⟩)⟩)
          simp only [stepOp, unloadLibrary, unloadLibraryInternal, if_neg hpath,
            if_neg hp, if_neg hne, if_pos hlt]
          omega
        · rw [stepOp_unload_eq c hpath (by omega) (by omega)]
          right
          left
          simp only []
          omega

/-- Witness for C1 at a concrete handle and call sequence. -/
theorem load_unload_ref_count_nonneg_and_unit_delta_witness :
    0 ≤ (⟨true, "libfoo", 0, 0⟩ : ClassLoader).load_ref_count_ ∧
    ((Op.unload : Op) = Op.load ∨ (Op.unload : Op) = Op.unload) ∧
    (0 ≤ (runOps ⟨true, "libfoo", 0, 0⟩
        [Op.load, Op.unload, Op.unload]).load_ref_count_ ∧
     ((stepOp ⟨true, "libfoo", 0, 0⟩ Op.unload).load_ref_count_ -
          (⟨true, "libfoo", 0, 0⟩ : ClassLoader).load_ref_count_ = 1 ∨
      (stepOp ⟨true, "libfoo", 0, 0⟩ Op.unload).load_ref_count_ -
          (⟨true, "libfoo", 0, 0⟩ : ClassLoader).load_ref_count_ = -1 ∨
      ((stepOp ⟨true, "libfoo", 0, 0⟩ Op.unload).load_ref_count_ -
          (⟨true, "libfoo", 0, 0⟩ : ClassLoader).load_ref_count_ = 0 ∧
        ((⟨true, "libfoo", 0, 0⟩ : ClassLoader).library_path_ = "" ∨
         ((Op.unload : Op) = Op.unload ∧
           0 < (⟨true, "libfoo", 0, 0⟩ : ClassLoader).plugin_ref_count_) ∨
         ((Op.unload : Op) = Op.unload ∧
           (⟨true, "libfoo", 0, 0⟩ : ClassLoader).load_ref_count_ = 0))))) :=
  ⟨by decide, by decide,
    load_unload_ref_count_nonneg_and_unit_delta ⟨true, "libfoo", 0, 0⟩
      [Op.load, Op.unload, Op.unload] Op.unload (by decide) (by decide)⟩

/-- **C2.** Calling `unload()` while `plugin_ref_count_ > 0` on a non-empty
path never delegates to the registry (so the primitive's close operation is
never reached), leaves the handle state — in particular `load_ref_count_` —
unchanged, and returns the unchanged count normally (an `ok` result, never
an exception), with the locks restored to their entry state. -/
theorem unload_refused_when_plugins_alive (E : Type)
    (releaseResult : Except E Unit) (c : ClassLoader) (ls : LockState)
    (hp : 0 < c.plugin_ref_count_) (hpath : ¬ c.library_path_ = "")
    (hls : ls.plugin_ref_mutex_locked = false) :
    unloadLibraryE releaseResult c ls =
      Except.ok (c, c.load_ref_count_, [], ls) := by
  simp only [unloadLibraryE, unloadLibraryInternalE, if_neg hpath, if_pos hp,
    exit_enter_locks true ls hls]

/-- Witness for C2 at a concrete handle with two live plugin instances. -/
theorem unload_refused_when_plugins_alive_witness :
    0 < (⟨true, "libfoo", 3, 2⟩ : ClassLoader).plugin_ref_count_ ∧
    ¬ (⟨true, "libfoo", 3, 2⟩ : ClassLoader).library_path_ = "" ∧
    (⟨0, false⟩ : LockState).plugin_ref_mutex_locked = false ∧
    unloadLibraryE (Except.ok () : Except Unit Unit) ⟨true, "libfoo", 3, 2⟩
        ⟨0, false⟩ =
      Except.ok (⟨true, "libfoo", 3, 2⟩, 3, [], ⟨0, false⟩) :=
  ⟨by decide, by decide, by decide,
    unload_refused_when_plugins_alive Unit (Except.ok ())
      ⟨true, "libfoo", 3, 2⟩ ⟨0, false⟩ (by decide) (by decide) (by decide)⟩

/-- **C3 (counterexample).** The claim "the final `load_ref_count_` equals
`max(0, #load − #unload)`" fails on the sequence `[unload, load]` from a
fresh on-demand handle with path `"libfoo"`: the first `unload()` is
clamped at 0, so the final count is 1 while the formula gives 0. -/
theorem final_count_max_formula_cex :
    (runOps (construct "libfoo" true).1 [Op.unload, Op.load]).load_ref_count_ = 1 ∧
    max 0 ((numLoads [Op.unload, Op.load] : Int) -
      (numUnloads [Op.unload, Op.load] : Int)) = 0 := by
  decide

/-- **C3 (amended).** For a load/unload sequence on a fresh on-demand handle
with a non-empty path and `plugin_ref_count_` 0 throughout, in which no
prefix contains more `unload()` than `load()` calls, the final
`load_ref_count_` equals `max(0, #load − #unload)`. -/
theorem final_count_eq_max_of_prefix_bounded (library_path : String)
    (hpath : ¬ library_path = "") (ops : List Op)
    (hops : ∀ op ∈ ops, op = Op.load ∨ op = Op.unload)
    (hpre : ∀ k, k ≤ ops.length →
      numUnloads (List.take k ops) ≤ numLoads (List.take k ops)) :
    (runOps (construct library_path true).1 ops).load_ref_count_ =
      max 0 ((numLoads ops : Int) - (numUnloads ops : Int)) := by
  have hc0 : (construct library_path true).1 =
      ⟨true, library_path, 0, 0⟩ := by
    simp [construct]
  rw [hc0]
  rw [runOps_count_eq ops ⟨true, library_path, 0, 0⟩ hpath rfl (by norm_num)
    hops ?_]
  · have hfin := hpre ops.length (le_refl _)
    rw [List.take_length] at hfin
    have hfin' : (numUnloads ops : Int) ≤ (numLoads ops : Int) := by
      exact_mod_cast hfin
    rw [max_eq_right (by omega : (0 : Int) ≤ (numLoads ops : Int) - (numUnloads ops : Int))]
    simp only []
    omega
  · intro k hk
    have h := hpre k hk
    simp only []
    omega

/-- Witness for the amended C3 on the sequence `[load, load, unload]`. -/
theorem final_count_eq_max_of_prefix_bounded_witness :
    (runOps (construct "libfoo" true).1
        [Op.load, Op.load, Op.unload]).load_ref_count_ =
      max 0 ((numLoads [Op.load, Op.load, Op.unload] : Int) -
        (numUnloads [Op.load, Op.load, Op.unload] : Int)) :=
  final_count_eq_max_of_prefix_bounded "libfoo" (by decide)
    [Op.load, Op.load, Op.unload] (by decide) (by decide)

/-- **C4.** A handle whose path is the empty string never reaches the
registry (hence never the dynamic-module primitive): construction with
either on-demand value emits no registry call, `loadLibrary` returns with
the state (all counters) unchanged, `unloadLibrary` returns 0 with the state
unchanged, and destruction emits no registry call and leaves the state
unchanged. -/
theorem empty_path_operations_noop (ondemand_load_unload : Bool)
    (c : ClassLoader) (h : c.library_path_ = "") :
    (construct "" ondemand_load_unload).2 = [] ∧
    loadLibrary c = (c, []) ∧
    unloadLibrary c = (c, 0, []) ∧
    destruct c = (c, []) := by
  refine ⟨?_, ?_, ?_, ?_⟩
  · cases ondemand_load_unload <;> decide
  · simp [loadLibrary, if_pos h]
  · simp [unloadLibrary, if_pos h]
  · simp [destruct, unloadLibrary, if_pos h]

/-- Witness for C4 at a concrete empty-path handle. -/
theorem empty_path_operations_noop_witness :
    (⟨false, "", 0, 0⟩ : ClassLoader).library_path_ = "" ∧
    ((construct "" true).2 = [] ∧
     loadLibrary ⟨false, "", 0, 0⟩ = (⟨false, "", 0, 0⟩, []) ∧
     unloadLibrary ⟨false, "", 0, 0⟩ = (⟨false, "", 0, 0⟩, 0, []) ∧
     destruct ⟨false, "", 0, 0⟩ = (⟨false, "", 0, 0⟩, [])) :=
  ⟨by decide, empty_path_operations_noop true ⟨false, "", 0, 0⟩ (by decide)⟩

/-- **C5.** The internal unload with `plugin_ref_count_ = 0` on a non-empty
path decrements `load_ref_count_` with a floor of 0, and delegates to the
registry release (`impl::unloadLibrary(path, this)`) exactly when the
decrement lands on 0. -/
theorem internal_unload_decrement_floor_release (c : ClassLoader)
    (hp : c.plugin_ref_count_ = 0) (hpath : ¬ c.library_path_ = "") :
    (unloadLibraryInternal true c).1.load_ref_count_ =
      max 0 (c.load_ref_count_ - 1) ∧
    (unloadLibraryInternal true c).2.2 =
      (if c.load_ref_count_ - 1 = 0 then
        [RegistryEvent.release c.library_path_] else []) := by
  have hp' : ¬ c.plugin_ref_count_ > 0 := by omega
  by_cases h0 : c.load_ref_count_ - 1 = 0
  · simp only [unloadLibraryInternal, if_neg hp', if_pos h0]
    exact ⟨by omega, trivial⟩
  · by_cases hlt : c.load_ref_count_ - 1 < 0
    · simp only [unloadLibraryInternal, if_neg hp', if_neg h0, if_pos hlt]
      exact ⟨by omega, trivial⟩
    · simp only [unloadLibraryInternal, if_neg hp', if_neg h0, if_neg hlt]
      exact ⟨by omega, trivial⟩

/-- Witness for C5 at a handle whose count is 1, so the decrement lands on
0 and the release is delegated. -/
theorem internal_unload_decrement_floor_release_witness :
    (⟨true, "libfoo", 1, 0⟩ : ClassLoader).plugin_ref_count_ = 0 ∧
    ¬ (⟨true, "libfoo", 1, 0⟩ : ClassLoader).library_path_ = "" ∧
    ((unloadLibraryInternal true ⟨true, "libfoo", 1, 0⟩).1.load_ref_count_ =
      max 0 ((⟨true, "libfoo", 1, 0⟩ : ClassLoader).load_ref_count_ - 1) ∧
     (unloadLibraryInternal true ⟨true, "libfoo", 1, 0⟩).2.2 =
      (if (⟨true, "libfoo", 1, 0⟩ : ClassLoader).load_ref_count_ - 1 = 0 then
        [RegistryEvent.release (⟨true, "libfoo", 1, 0⟩ : ClassLoader).library_path_]
       else [])) :=
  ⟨by decide, by decide,
    internal_unload_decrement_floor_release ⟨true, "libfoo", 1, 0⟩
      (by decide) (by decide)⟩

/-- **C6.** Constructing with `on_demand = false` and a non-empty path
issues exactly one load immediately: `load_ref_count_` ends at 1 and the
registry acquire is invoked exactly once.  Constructing with
`on_demand = true` issues no load: `load_ref_count_` ends at 0 and the
registry is untouched. -/
theorem construct_load_semantics (library_path : String)
    (h : ¬ library_path = "") :
    (construct library_path false).1.load_ref_count_ = 1 ∧
    (construct library_path false).2 = [RegistryEvent.acquire library_path] ∧
    (construct library_path true).1.load_ref_count_ = 0 ∧
    (construct library_path true).2 = [] := by
  refine ⟨?_, ?_, ?_, ?_⟩ <;> simp [construct, loadLibrary, if_neg h]

/-- Witness for C6 at the path `"libfoo"`. -/
theorem construct_load_semantics_witness :
    ¬ ("libfoo" = "") ∧
    ((construct "libfoo" false).1.load_ref_count_ = 1 ∧
     (construct "libfoo" false).2 = [RegistryEvent.acquire "libfoo"] ∧
     (construct "libfoo" true).1.load_ref_count_ = 0 ∧
     (construct "libfoo" true).2 = []) :=
  ⟨by decide, construct_load_semantics "libfoo" (by decide)⟩

/-- **C7.** When the registry delegation inside the internal unload raises
an error (here: `plugin_ref_count_ = 0` and `load_ref_count_ = 1`, so the
release is reached, and the release outcome is an error `e`), the call
propagates exactly `e`, and the lock state accompanying the propagated
error equals the entry lock state: the plugin mutex taken by the call (when
asked to) has been unlocked by the `catch (...)` handler and the recursive
load mutex hold has been released by the `std::lock_guard`. -/
theorem release_error_unlocks_before_propagation (E : Type) (e : E)
    (lock_plugin_ref_count : Bool) (c : ClassLoader) (ls : LockState)
    (hp : c.plugin_ref_count_ = 0) (hc : c.load_ref_count_ = 1)
    (hls : ls.plugin_ref_mutex_locked = false) :
    unloadLibraryInternalE (Except.error e) lock_plugin_ref_count c ls =
      Except.error (e, ls) := by
  have hp' : ¬ c.plugin_ref_count_ > 0 := by omega
  have h0 : c.load_ref_count_ - 1 = 0 := by omega
  simp only [unloadLibraryInternalE, if_neg hp', if_pos h0,
    exit_enter_locks lock_plugin_ref_count ls hls]

/-- Witness for C7: an error value 5 propagates unmodified from a call that
entered while the load mutex was already held twice (re-entrancy), and the
lock state returns to that entry state. -/
theorem release_error_unlocks_before_propagation_witness :
    (⟨true, "libfoo", 1, 0⟩ : ClassLoader).plugin_ref_count_ = 0 ∧
    (⟨true, "libfoo", 1, 0⟩ : ClassLoader).load_ref_count_ = 1 ∧
    (⟨2, false⟩ : LockState).plugin_ref_mutex_locked = false ∧
    unloadLibraryInternalE (Except.error 5 : Except Nat Unit) true
        ⟨true, "libfoo", 1, 0⟩ ⟨2, false⟩ =
      Except.error (5, ⟨2, false⟩) :=
  ⟨by decide, by decide, by decide,
    release_error_unlocks_before_propagation Nat 5 true ⟨true, "libfoo", 1, 0⟩
      ⟨2, false⟩ (by decide) (by decide) (by decide)⟩

/-- **C8.** The process-wide diagnostic flag starts out `false`, and for
every boolean `b`, reading the flag right after setting it to `b` yields
`b`, while the rest of the process state is untouched. -/
theorem unmanaged_instance_flag_roundtrip (σ : Type) (g : GlobalState σ)
    (b : Bool) :
    initial_has_unmananged_instance_been_created = false ∧
    hasUnmanagedInstanceBeenCreated (setUnmanagedInstanceBeenCreated b g) = b ∧
    (setUnmanagedInstanceBeenCreated b g).rest = g.rest :=
  ⟨rfl, rfl, rfl⟩

/-- **C9.** Calling `unload()` on a non-empty-path handle whose
`load_ref_count_` is already 0 (and `plugin_ref_count_` is 0) returns 0,
leaves the state unchanged — `load_ref_count_` stays 0 — and emits no
registry release, so the primitive's close operation is not reached. -/
theorem unload_at_zero_count_noop (c : ClassLoader)
    (hpath : ¬ c.library_path_ = "") (hc : c.load_ref_count_ = 0)
    (hp : c.plugin_ref_count_ = 0) :
    unloadLibrary c = (c, 0, []) := by
  have hp' : ¬ c.plugin_ref_count_ > 0 := by omega
  have h0 : ¬ c.load_ref_count_ - 1 = 0 := by omega
  have hlt : c.load_ref_count_ - 1 < 0 := by omega
  simp only [unloadLibrary, unloadLibraryInternal, if_neg hpath, if_neg hp',
    if_neg h0, if_pos hlt]
  cases c with
  | mk o p l pl => simp_all

/-- Witness for C9 at a concrete handle with count 0. -/
theorem unload_at_zero_count_noop_witness :
    ¬ (⟨true, "libfoo", 0, 0⟩ : ClassLoader).library_path_ = "" ∧
    (⟨true, "libfoo", 0, 0⟩ : ClassLoader).load_ref_count_ = 0 ∧
    (⟨true, "libfoo", 0, 0⟩ : ClassLoader).plugin_ref_count_ = 0 ∧
    unloadLibrary ⟨true, "libfoo", 0, 0⟩ = (⟨true, "libfoo", 0, 0⟩, 0, []) :=
  ⟨by decide, by decide, by decide,
    unload_at_zero_count_noop ⟨true, "libfoo", 0, 0⟩ (by decide) (by decide)
      (by decide)⟩

/-- **C10.** A handle constructed with the empty path has
`load_ref_count_ = 0` in every reachable state: after construction with
either on-demand value, after any sequence of `load()`/`unload()` calls and
plugin-count changes, and after destruction. -/
theorem empty_path_count_always_zero (ondemand_load_unload : Bool)
    (ops : List Op) :
    (runOps (construct "" ondemand_load_unload).1 ops).load_ref_count_ = 0 ∧
    (destruct (runOps (construct "" ondemand_load_unload).1 ops)).1.load_ref_count_ = 0 := by
  have hc0 : (construct "" ondemand_load_unload).1 =
      ⟨ondemand_load_unload, "", 0, 0⟩ := by
    cases ondemand_load_unload <;> decide
  rw [hc0]
  obtain ⟨h1, h2⟩ :=
    runOps_empty_path ops ⟨ondemand_load_unload, "", 0, 0⟩ rfl
  refine ⟨h1, ?_⟩
  simp only [destruct, unloadLibrary, if_pos h2]
  exact h1
